import Mathlib

/-!
Shallow embedding of the `discovery30303` UDP discovery scanner
(`discovery30303/__init__.py`), together with theorems checking the
natural-language specification against it.

Modelling conventions:
* Python `bytes` are `List Nat` (each entry a byte value).
* Python `str` is `List Nat` (a list of Unicode code points), abbreviated
  `PyStr`; `str2cp` converts a Lean string literal for convenience.
* `bytes.decode("utf-8")` is a real validating UTF-8 decoder returning
  `Option PyStr` (`none` models a raised `UnicodeDecodeError`).
* `int(...)` is `pyInt`, modelling CPython's decimal literal parsing
  (surrounding whitespace, optional sign, digits with single underscores
  between digits); `none` models a raised `ValueError`.
* The Python dict `response_list` is an insertion-ordered association list.
  Python keys are dynamically typed: the code inserts `(ip, port)` tuples
  but membership-tests a bare ip string, so keys are a sum type `PyKey`.
* A Python function that can raise is modelled by returning the (possibly
  updated) state together with `Except PyErr α`; returning `None` from a
  `-> bool` context is modelled by its truthiness `false`.
-/

namespace Discovery30303

/-- Convert a Lean string literal to the code-point list model of a Python
string. -/
def str2cp (s : String) : List Nat := s.data.map Char.toNat

/-- Python strings are lists of Unicode code points. -/
abbrev PyStr := List Nat

/-- The code points treated as whitespace by `str.strip` / `int` (ASCII
whitespace: space, tab, LF, VT, FF, CR). -/
def isSpace (c : Nat) : Bool := c = 32 || c = 9 || c = 10 || c = 11 || c = 12 || c = 13

/-- Python `str.rstrip()` (no argument): drop trailing whitespace. -/
def rstrip (s : PyStr) : PyStr := (s.reverse.dropWhile isSpace).reverse

/-- Python `str.lstrip()` (no argument): drop leading whitespace. -/
def lstrip (s : PyStr) : PyStr := s.dropWhile isSpace

/-- Python `str.strip()` (no argument). -/
def strip (s : PyStr) : PyStr := rstrip (lstrip s)

/-- Python slicing `s[a:b]` for non-negative bounds. -/
def pySlice (s : List Nat) (a b : Nat) : List Nat := (s.take b).drop a

/-- `s.split(sep)[0]` for a one-element separator `sep` not present limits to
the whole string: the segment before the first occurrence of `x`. -/
def takeUntil (x : Nat) (s : List Nat) : List Nat := s.takeWhile (fun c => !(c == x))

/-- Decimal digit value of a code point, if it is an ASCII digit. -/
def digit? (c : Nat) : Option Nat := if 48 ≤ c ∧ c ≤ 57 then some (c - 48) else none

/-- Digits of a decimal literal after the first digit: CPython allows a
single underscore between two digits (`int("1_2") == 12`) and nothing else. -/
def parseUAux : PyStr → Nat → Option Nat
  | [], acc => some acc
  | 95 :: c :: rest, acc =>
    match digit? c with
    | some d => parseUAux rest (acc * 10 + d)
    | none => none
  | c :: rest, acc =>
    match digit? c with
    | some d => parseUAux rest (acc * 10 + d)
    | none => none

/-- A non-empty unsigned decimal literal. -/
def parseUDigits (s : PyStr) : Option Nat :=
  match s with
  | [] => none
  | c :: rest =>
    match digit? c with
    | some d => parseUAux rest d
    | none => none

/-- Python `int(s)` for base 10: strip whitespace, optional sign, decimal
digits.  `none` models a raised `ValueError`. -/
def pyInt (s : PyStr) : Option Int :=
  match strip s with
  | 45 :: rest => (parseUDigits rest).map (fun n => -(n : Int))
  | 43 :: rest => (parseUDigits rest).map (fun n => (n : Int))
  | t => (parseUDigits t).map (fun n => (n : Int))

/-- Strict UTF-8 decoding of a byte list into code points, as
`bytes.decode("utf-8")`: rejects stray continuations, overlong forms,
surrogates and values above U+10FFFF.  `none` models `UnicodeDecodeError`. -/
def utf8Decode : List Nat → Option (List Nat)
  | [] => some []
  | b :: rest =>
    if b < 128 then (utf8Decode rest).map (fun t => b :: t)
    else if b < 194 then none
    else if b < 224 then
      match rest with
      | b1 :: rest1 =>
        if 128 ≤ b1 ∧ b1 < 192 then
          (utf8Decode rest1).map (fun t => ((b - 192) * 64 + (b1 - 128)) :: t)
        else none
      | [] => none
    else if b < 240 then
      match rest with
      | b1 :: b2 :: rest2 =>
        if (if b = 224 then 160 ≤ b1 else if b = 237 then b1 < 160 else True) ∧
            128 ≤ b1 ∧ b1 < 192 ∧ 128 ≤ b2 ∧ b2 < 192 then
          (utf8Decode rest2).map
            (fun t => ((b - 224) * 4096 + (b1 - 128) * 64 + (b2 - 128)) :: t)
        else none
      | _ => none
    else if b < 245 then
      match rest with
      | b1 :: b2 :: b3 :: rest3 =>
        if (if b = 240 then 144 ≤ b1 else if b = 244 then b1 < 144 else True) ∧
            128 ≤ b1 ∧ b1 < 192 ∧ 128 ≤ b2 ∧ b2 < 192 ∧ 128 ≤ b3 ∧ b3 < 192 then
          (utf8Decode rest3).map
            (fun t =>
              ((b - 240) * 262144 + (b1 - 128) * 4096 + (b2 - 128) * 64 + (b3 - 128)) :: t)
        else none
      | _ => none
    else none

/-- `str.zfill(width)`: left-pad with `'0'` to `width`, inserting the zeros
after a leading sign character. -/
def zfill (width : Nat) (s : PyStr) : PyStr :=
  if width ≤ s.length then s
  else
    match s with
    | [] => List.replicate width 48
    | c :: rest =>
      if c = 43 ∨ c = 45 then c :: (List.replicate (width - s.length) 48 ++ rest)
      else List.replicate (width - s.length) 48 ++ (c :: rest)

/-- The single-character substitution done by `mac.replace("-", ":")`. -/
def replDash (c : Nat) : Nat := if c = 45 then 58 else c

/-- `normalize_mac` from the source:
`":".join([i.zfill(2) for i in mac.replace("-", ":").split(":")])`. -/
def normalize_mac (mac : PyStr) : PyStr :=
  List.intercalate [58] (((mac.map replDash).splitOn 58).map (zfill 2))

/-- `zfill` is the identity on lists already at least as long as the width. -/
theorem zfill_of_le (width : Nat) (s : PyStr) (h : width ≤ s.length) : zfill width s = s := by
  simp [zfill, h]

/-- `zfill` never yields a list shorter than the requested width. -/
theorem zfill_le_length (width : Nat) (s : PyStr) : width ≤ (zfill width s).length := by
  unfold zfill
  split
  · assumption
  · split
    · simp
    · split <;> simp_all <;> omega

/-- `zfill` at a fixed width is idempotent. -/
theorem zfill_zfill (s : PyStr) : zfill 2 (zfill 2 s) = zfill 2 s :=
  zfill_of_le 2 _ (zfill_le_length 2 s)

/-- Every element of `zfill width s` is a `'0'` or an element of `s`. -/
theorem mem_zfill (c width : Nat) (s : PyStr) (h : c ∈ zfill width s) : c = 48 ∨ c ∈ s := by
  by_cases hw : width ≤ s.length
  · rw [zfill_of_le _ _ hw] at h
    exact Or.inr h
  · cases s with
    | nil =>
      simp only [zfill, hw, if_neg, not_false_iff, List.mem_replicate] at h
      exact Or.inl h.2
    | cons a rest =>
      by_cases hc : a = 43 ∨ a = 45
      · simp only [zfill, hw, if_neg, not_false_iff, if_pos hc, List.mem_cons,
          List.mem_append, List.mem_replicate] at h
        rcases h with h | h | h
        · exact Or.inr (by simp [h])
        · exact Or.inl h.2
        · exact Or.inr (by simp [h])
      · simp only [zfill, hw, if_neg, not_false_iff, hc, List.mem_append,
          List.mem_replicate, List.mem_cons] at h
        rcases h with h | h
        · exact Or.inl h.2
        · exact Or.inr (by simpa using h)

/-- `List.splitOn` unfolds to `List.splitOnP` on the equality test. -/
theorem splitOn_eq_splitOnP (x : Nat) (xs : List Nat) :
    xs.splitOn x = xs.splitOnP (· == x) := rfl

/-- No element of a chunk produced by `splitOnP` satisfies the splitting
predicate. -/
theorem splitOnP_parts_no_sep (p : Nat → Bool) (xs : List Nat) :
    ∀ l ∈ xs.splitOnP p, ∀ c ∈ l, p c = false := by
  induction xs with
  | nil =>
    intro l hl c hc
    simp only [List.splitOnP_nil, List.mem_singleton] at hl
    subst hl
    simp at hc
  | cons x xs ih =>
    intro l hl c hc
    rw [List.splitOnP_cons] at hl
    by_cases hx : p x
    · rw [if_pos hx] at hl
      rcases List.mem_cons.mp hl with h1 | h1
      · subst h1
        simp at hc
      · exact ih l h1 c hc
    · rw [if_neg hx] at hl
      cases hsp : xs.splitOnP p with
      | nil => exact absurd hsp (List.splitOnP_ne_nil p xs)
      | cons hd tl =>
        rw [hsp, List.modifyHead] at hl
        rcases List.mem_cons.mp hl with h1 | h1
        · subst h1
          rcases List.mem_cons.mp hc with h2 | h2
          · subst h2
            simpa using hx
          · exact ih hd (by rw [hsp]; exact List.mem_cons_self _ _) c h2
        · exact ih l (by rw [hsp]; exact List.mem_cons_of_mem _ h1) c hc

/-- Elements of chunks produced by `splitOnP` come from the original list. -/
theorem mem_of_mem_splitOnP (p : Nat → Bool) (xs : List Nat) :
    ∀ l ∈ xs.splitOnP p, ∀ c ∈ l, c ∈ xs := by
  induction xs with
  | nil =>
    intro l hl c hc
    simp only [List.splitOnP_nil, List.mem_singleton] at hl
    subst hl
    simp at hc
  | cons x xs ih =>
    intro l hl c hc
    rw [List.splitOnP_cons] at hl
    by_cases hx : p x
    · rw [if_pos hx] at hl
      rcases List.mem_cons.mp hl with h1 | h1
      · subst h1
        simp at hc
      · exact List.mem_cons_of_mem _ (ih l h1 c hc)
    · rw [if_neg hx] at hl
      cases hsp : xs.splitOnP p with
      | nil => exact absurd hsp (List.splitOnP_ne_nil p xs)
      | cons hd tl =>
        rw [hsp, List.modifyHead] at hl
        rcases List.mem_cons.mp hl with h1 | h1
        · subst h1
          rcases List.mem_cons.mp hc with h2 | h2
          · subst h2
            exact List.mem_cons_self _ _
          · exact List.mem_cons_of_mem _
              (ih hd (by rw [hsp]; exact List.mem_cons_self _ _) c h2)
        · exact List.mem_cons_of_mem _
            (ih l (by rw [hsp]; exact List.mem_cons_of_mem _ h1) c hc)

/-- Unfolding `intercalate` over a two-or-more element list of chunks. -/
theorem intercalate_cons_cons (s : Nat) (a b : List Nat) (tl : List (List Nat)) :
    List.intercalate [s] (a :: b :: tl) = a ++ s :: List.intercalate [s] (b :: tl) := by
  simp [List.intercalate, List.intersperse_cons_cons]

/-- Every element of `intercalate [s] ls` is `s` or comes from a chunk. -/
theorem mem_intercalate_single (s : Nat) (ls : List (List Nat)) (c : Nat)
    (h : c ∈ List.intercalate [s] ls) : c = s ∨ ∃ l ∈ ls, c ∈ l := by
  induction ls with
  | nil => simp [List.intercalate] at h
  | cons a tl ih =>
    cases tl with
    | nil =>
      refine Or.inr ⟨a, List.mem_singleton_self a, ?_⟩
      simpa [List.intercalate] using h
    | cons b tl2 =>
      rw [intercalate_cons_cons] at h
      rcases List.mem_append.mp h with h1 | h1
      · exact Or.inr ⟨a, List.mem_cons_self _ _, h1⟩
      · rcases List.mem_cons.mp h1 with h2 | h2
        · exact Or.inl h2
        · rcases ih h2 with h3 | ⟨l, hl, hcl⟩
          · exact Or.inl h3
          · exact Or.inr ⟨l, List.mem_cons_of_mem _ hl, hcl⟩

/-- `normalize_mac` is idempotent on every input string. -/
theorem normalize_mac_idem (m : PyStr) : normalize_mac (normalize_mac m) = normalize_mac m := by
  have hps_ne : ((m.map replDash).splitOn 58).map (zfill 2) ≠ [] := by
    intro hcon
    rw [List.map_eq_nil_iff] at hcon
    exact List.splitOnP_ne_nil (· == 58) (m.map replDash) hcon
  have hnosep : ∀ l ∈ ((m.map replDash).splitOn 58).map (zfill 2), 58 ∉ l := by
    intro l hl hmem
    rcases List.mem_map.mp hl with ⟨l0, hl0, rfl⟩
    rcases mem_zfill 58 2 l0 hmem with h | h
    · omega
    · have := splitOnP_parts_no_sep (· == 58) (m.map replDash) l0
        (by rwa [← splitOn_eq_splitOnP]) 58 h
      simp at this
  have hA : (normalize_mac m).map replDash = normalize_mac m := by
    have : ∀ c ∈ normalize_mac m, replDash c = c := by
      intro c hc
      rcases mem_intercalate_single 58 _ c hc with h | ⟨l, hl, hcl⟩
      · subst h
        simp [replDash]
      · rcases List.mem_map.mp hl with ⟨l0, hl0, rfl⟩
        rcases mem_zfill c 2 l0 hcl with h | h
        · subst h
          simp [replDash]
        · have hcm : c ∈ m.map replDash :=
            mem_of_mem_splitOnP (· == 58) (m.map replDash) l0
              (by rwa [← splitOn_eq_splitOnP]) c h
          rcases List.mem_map.mp hcm with ⟨d, _, rfl⟩
          by_cases hd : d = 45
          · simp [replDash, hd]
          · simp [replDash, hd]
    calc (normalize_mac m).map replDash = (normalize_mac m).map id :=
          List.map_congr_left this
      _ = normalize_mac m := List.map_id _
  conv_lhs => rw [normalize_mac, hA]
  rw [normalize_mac, List.splitOn_intercalate _ 58 hnosep hps_ne, List.map_map]
  congr 1
  exact List.map_congr_left (fun l _ => zfill_zfill l)

/-- Exceptions that the modelled code paths can raise. -/
inductive PyErr
  | valueError
  | unicodeDecodeError
  | invalidStateError
deriving DecidableEq, Repr

/-- A dynamically typed Python value stored in `additional_data` (the code
stores `int`s for four fields and a `str` for `temp_unit`). -/
inductive PyVal
  | pint (n : Int)
  | pstr (s : PyStr)
deriving DecidableEq, Repr

/-- The `Device30303` dataclass. -/
structure Device30303 where
  hostname : PyStr
  mac : PyStr
  ipaddress : PyStr
  name : PyStr
  model : PyStr
  additional_data : List (PyStr × PyVal)
deriving DecidableEq, Repr

/-- A Python dict key as used on `response_list`: the code inserts
`(ip, port)` tuples but membership-tests the bare ip string, so both key
shapes occur.  Cross-shape equality is `False`, as in Python. -/
inductive PyKey
  | kstr (s : PyStr)
  | ktup (ip : PyStr) (port : Nat)
deriving DecidableEq, Repr

/-- The `response_list` dict: insertion-ordered key/value pairs. -/
abbrev ResponseList := List (PyKey × Device30303)

/-- Python `k in d`. -/
def dictContains (k : PyKey) (d : ResponseList) : Bool :=
  d.any (fun kv => decide (kv.1 = k))

/-- Python `d[k] = v`: overwrite in place if present, else append. -/
def dictSet (k : PyKey) (v : Device30303) (d : ResponseList) : ResponseList :=
  if dictContains k d then d.map (fun kv => if kv.1 = k then (k, v) else kv)
  else d ++ [(k, v)]

/-- `AIODiscovery30303.DISCOVER_MESSAGE = b"stdisc"`. -/
def DISCOVER_MESSAGE : List Nat := str2cp "stdisc"

/-- `MODEL_550_BYTES = b"STM 550"`. -/
def MODEL_550_BYTES : List Nat := str2cp "STM 550"

/-- Python `str.split("\r\n")`: split on the two-character CRLF separator,
leftmost-first, keeping empty segments. -/
def splitCRLF : PyStr → List PyStr
  | [] => [[]]
  | 13 :: 10 :: rest => [] :: splitCRLF rest
  | c :: rest =>
    match splitCRLF rest with
    | [] => [[c]]
    | s :: ss => (c :: s) :: ss

/-- Python `from_address[0] == address` where `address` may be `None`
(comparison with `None` is `False`). -/
def addrEq (ip : PyStr) (address : Option PyStr) : Bool :=
  match address with
  | none => false
  | some a => decide (ip = a)

/-- The five fixed-width `status_data` sub-fields of the `"STM 550"` branch,
decoded and parsed in source order (`temperature`, `temp_unit`, `profile`,
`minutesleft`, `secondsleft`); the first failure raises. -/
def parse550fields (d : List Nat) : Except PyErr (Int × PyStr × Int × Int × Int) :=
  match utf8Decode (pySlice d 7 10) with
  | none => .error .unicodeDecodeError
  | some t0 =>
    match pyInt (strip t0) with
    | none => .error .valueError
    | some temperature =>
      match utf8Decode (pySlice d 10 11) with
      | none => .error .unicodeDecodeError
      | some tempUnit =>
        match utf8Decode (pySlice d 11 12) with
        | none => .error .unicodeDecodeError
        | some p0 =>
          match pyInt p0 with
          | none => .error .valueError
          | some profileIdx =>
            match utf8Decode (pySlice d 12 14) with
            | none => .error .unicodeDecodeError
            | some m0 =>
              match pyInt (strip m0) with
              | none => .error .valueError
              | some minutesleft =>
                match utf8Decode (pySlice d 14 16) with
                | none => .error .unicodeDecodeError
                | some s0 =>
                  match pyInt (strip s0) with
                  | none => .error .valueError
                  | some secondsleft =>
                    .ok (temperature, tempUnit, profileIdx, minutesleft, secondsleft)

/-- `AIODiscovery30303._process_response`.  Returns the (possibly updated)
`response_list` together with the outcome: `.ok b` is a normal return of
truthiness `b` (the source's bare `return` of `None` is falsy), `.error e`
is a raised exception (the dict is unchanged in that case because the code
parses everything before its single dict assignment). -/
def processResponse (data : Option (List Nat)) (fromAddress : PyStr × Nat)
    (address : Option PyStr) (responseList : ResponseList) :
    ResponseList × Except PyErr Bool :=
  match data with
  | none => (responseList, .ok false)
  | some d =>
    if d = DISCOVER_MESSAGE then (responseList, .ok false)
    else if pySlice d 0 7 = MODEL_550_BYTES then
      match parse550fields d with
      | .error e => (responseList, .error e)
      | .ok (temperature, tempUnit, profileIdx, minutesleft, secondsleft) =>
        match utf8Decode (pySlice d 0 7) with
        | none => (responseList, .error .unicodeDecodeError)
        | some modelS =>
          match utf8Decode (pySlice d 16 33) with
          | none => (responseList, .error .unicodeDecodeError)
          | some macS =>
            match utf8Decode (takeUntil 0 (d.drop 33)) with
            | none => (responseList, .error .unicodeDecodeError)
            | some nameS =>
              let dev : Device30303 :=
                { hostname := str2cp "Unavailable"
                  mac := normalize_mac macS
                  ipaddress := fromAddress.1
                  name := nameS
                  model := strip modelS
                  additional_data :=
                    [(str2cp "temperature", .pint temperature),
                     (str2cp "temp_unit", .pstr tempUnit),
                     (str2cp "profile", .pint profileIdx),
                     (str2cp "minutesleft", .pint minutesleft),
                     (str2cp "secondsleft", .pint secondsleft)] }
              (dictSet (.ktup fromAddress.1 fromAddress.2) dev responseList,
               .ok (addrEq fromAddress.1 address))
    else
      match utf8Decode d with
      | none => (responseList, .error .unicodeDecodeError)
      | some s =>
        if (splitCRLF s).length < 3 ∨ dictContains (.kstr fromAddress.1) responseList then
          (responseList, .ok false)
        else
          let hostname := rstrip ((splitCRLF s).getD 0 [])
          let dev : Device30303 :=
            { hostname := hostname
              mac := normalize_mac (rstrip ((splitCRLF s).getD 1 []))
              ipaddress := fromAddress.1
              name := rstrip (takeUntil 0 ((splitCRLF s).getD 2 []))
              model := takeUntil 45 hostname
              additional_data := [] }
          (dictSet (.ktup fromAddress.1 fromAddress.2) dev responseList,
           .ok (addrEq fromAddress.1 address))

/-- Semantics of `asyncio.Future.set_result` on the one-shot
`found_all_future`: resolving a pending future succeeds; resolving an
already-resolved future raises `InvalidStateError`. -/
def futureSetResult (fut : Option Bool) : Except PyErr (Option Bool) :=
  match fut with
  | none => .ok (some true)
  | some _ => .error .invalidStateError

/-- The `_on_response` datagram callback in `async_scan`: run
`_process_response` and, when it returns a truthy value, call
`found_all_future.set_result(True)`.  State is `(response_list, future)`;
the second component of the result is a raised exception, if any. -/
def onResponse (data : List Nat) (addr : PyStr × Nat) (address : Option PyStr)
    (st : ResponseList × Option Bool) : (ResponseList × Option Bool) × Option PyErr :=
  let res := processResponse (some data) addr address st.1
  match res.2 with
  | .error e => ((res.1, st.2), some e)
  | .ok b =>
    if b then
      match futureSetResult st.2 with
      | .ok f2 => ((res.1, f2), none)
      | .error e => ((res.1, st.2), some e)
    else ((res.1, st.2), none)

/-- `AIODiscovery30303.BROADCAST_FREQUENCY = 3`. -/
def BROADCAST_FREQUENCY : ℚ := 3

/-- The retry loop of `_async_run_scan` under idealized timing: the session
starts at monotonic time `0` with `quit_time = timeoutQ`; each
`asyncio.wait_for` either observes the resolved future (`reply i = true`
during wait number `i`) or times out after consuming exactly its computed
slice `min remainT (timeoutQ / BROADCAST_FREQUENCY)`.  Arguments after the
oracle: fuel, current monotonic time, `remain_time`, wait index, datagrams
sent so far.  Returns the total number of discovery datagrams sent. -/
def runScanLoop (timeoutQ : ℚ) (reply : ℕ → Bool) : ℕ → ℚ → ℚ → ℕ → ℕ → ℕ
  | 0, _, _, _, sends => sends
  | fuel + 1, now, remainT, i, sends =>
    let timeOut := min remainT (timeoutQ / BROADCAST_FREQUENCY)
    if timeOut ≤ 0 then sends
    else if reply i then sends
    else if timeoutQ ≤ now + timeOut then sends
    else runScanLoop timeoutQ reply fuel (now + timeOut) (timeoutQ - (now + timeOut))
      (i + 1) (sends + 1)

/-- `_async_run_scan`: one datagram is sent before the loop, then the loop
re-sends on each expired slice that leaves time before the deadline. -/
def asyncRunScan (timeoutQ : ℚ) (reply : ℕ → Bool) (fuel : ℕ) : ℕ :=
  runScanLoop timeoutQ reply fuel 0 timeoutQ 0 1

/-- The decoded text after the first CRLF separator (everything when no
separator occurs). -/
def dropSeg : PyStr → PyStr
  | [] => []
  | 13 :: 10 :: rest => rest
  | _ :: rest => dropSeg rest

/-- The legacy `name` field as the specification words it: "the remainder up
to the first NUL byte, trimmed" — the remainder of the decoded payload after
the hostname and mac segments, truncated at the first NUL and trimmed. -/
def specLegacyRemainderName (s : PyStr) : PyStr :=
  rstrip (takeUntil 0 (dropSeg (dropSeg s)))

/-- The legacy-format sample payload from the spec and test suite. -/
def legacySample : List Nat :=
  str2cp "MY450-6340     \r\n00-1E-C0-38-63-40\r\nMaster Bath\x00   \x00"

/-- A second, different well-formed legacy payload (used to exhibit
overwriting). -/
def legacySecond : List Nat := str2cp "OTHER-1\r\n1:2:3:4:5:6\r\nSecond\x00"

/-- The 550-family sample payload from the spec and test suite. -/
def sample550 : List Nat :=
  str2cp "STM 550 68F1145600-D0-CA-01-A9-41Master Bath\x00\x00\x00\x00\x00\x00\x00"

/-- A second, different well-formed 550-family payload. -/
def sample550Second : List Nat := str2cp "STM 550 70F2020100-D0-CA-01-A9-41Other Name\x00"

/-- A legacy payload with four CRLF segments and a late NUL byte: the third
segment and "the remainder up to the first NUL" differ on it. -/
def legacyFourSeg : List Nat := str2cp "a\r\nb\r\nc\r\nd\x00"

/-- C10: a `None` payload or an exact echo of the outbound discovery
message is ignored for every sender and collector state: the collector is
unchanged and the result is falsy, so no record is created and the session
is never stopped by such a datagram. -/
theorem c10_none_and_echo_ignored (fromAddress : PyStr × Nat) (address : Option PyStr)
    (responseList : ResponseList) :
    processResponse none fromAddress address responseList = (responseList, .ok false) ∧
    processResponse (some DISCOVER_MESSAGE) fromAddress address responseList
      = (responseList, .ok false) := by
  exact ⟨rfl, by simp [processResponse]⟩

/-- C2 (divergence witness): decoding the sample 550 payload yields the
claimed hostname, mac, ip and name, but the code stores `int` values — not
text — for `temperature`, `profile`, `minutesleft` and `secondsleft`
(`Device30303.additional_data` holds `pint 68`, not the string `"68"`). -/
theorem c2_550_values_are_ints_not_text :
    processResponse (some sample550) (str2cp "192.168.1.10", 48899) none []
      = ([(.ktup (str2cp "192.168.1.10") 48899,
          { hostname := str2cp "Unavailable"
            mac := str2cp "00:D0:CA:01:A9:41"
            ipaddress := str2cp "192.168.1.10"
            name := str2cp "Master Bath"
            model := str2cp "STM 550"
            additional_data :=
              [(str2cp "temperature", .pint 68),
               (str2cp "temp_unit", .pstr (str2cp "F")),
               (str2cp "profile", .pint 1),
               (str2cp "minutesleft", .pint 14),
               (str2cp "secondsleft", .pint 56)] })], .ok false) ∧
    PyVal.pint 68 ≠ PyVal.pstr (str2cp "68") := by
  exact ⟨rfl, by decide⟩

/-- C1 (divergence witness): offering a second, different record for a
sender address that already has one stored does not leave the stored record
unchanged and does not return false: in both wire formats the second offer
overwrites the single stored record, and (for a matching target address)
returns true again. -/
theorem c1_second_offer_overwrites :
    ((processResponse (some legacySample) (str2cp "192.168.213.252", 30303)
        (some (str2cp "192.168.213.252")) []).1.map (fun kv => kv.2.hostname)
      = [str2cp "MY450-6340"]) ∧
    ((processResponse (some legacySecond) (str2cp "192.168.213.252", 30303)
        (some (str2cp "192.168.213.252"))
        (processResponse (some legacySample) (str2cp "192.168.213.252", 30303)
          (some (str2cp "192.168.213.252")) []).1).1.map (fun kv => kv.2.hostname)
      = [str2cp "OTHER-1"]) ∧
    ((processResponse (some legacySecond) (str2cp "192.168.213.252", 30303)
        (some (str2cp "192.168.213.252"))
        (processResponse (some legacySample) (str2cp "192.168.213.252", 30303)
          (some (str2cp "192.168.213.252")) []).1).2 = .ok true) ∧
    ((processResponse (some sample550Second) (str2cp "192.168.1.10", 48899) none
        (processResponse (some sample550) (str2cp "192.168.1.10", 48899) none []).1).1.map
          (fun kv => kv.2.name)
      = [str2cp "Other Name"]) := by
  exact ⟨rfl, rfl, rfl, rfl⟩

/-- C5 (divergence witness): two well-formed responses from the same sender
IP but different ports do not collapse to one record — the dict is keyed by
the full `(ip, port)` tuple, so both are stored. -/
theorem c5_same_ip_two_ports_two_records :
    ((processResponse (some legacySample) (str2cp "192.168.213.252", 30304) none
        (processResponse (some legacySample) (str2cp "192.168.213.252", 48899) none []).1).1.map
      (fun kv => kv.1))
      = [.ktup (str2cp "192.168.213.252") 48899, .ktup (str2cp "192.168.213.252") 30304] := by
  exact rfl

/-- C6 (divergence witness): when a second qualifying reply from the target
arrives after the "stop now" future is already resolved, `_on_response`
calls `set_result` on a resolved future, which raises `InvalidStateError`
rather than being a safe no-op (the first call succeeds without error). -/
theorem c6_second_set_result_raises :
    ((onResponse legacySample (str2cp "192.168.213.252", 30303)
        (some (str2cp "192.168.213.252")) ([], none)).2 = none) ∧
    ((onResponse legacySample (str2cp "192.168.213.252", 30303)
        (some (str2cp "192.168.213.252"))
        (onResponse legacySample (str2cp "192.168.213.252", 30303)
          (some (str2cp "192.168.213.252")) ([], none)).1).2
      = some .invalidStateError) := by
  exact ⟨rfl, rfl⟩

/-- C3 (counterexample): on a legacy payload with four CRLF segments the
stored name is the third segment only (`"c"`), not "the remainder up to the
first NUL byte, trimmed" (`"c\r\nd"`), refuting the claim's universal name
rule as stated. -/
theorem c3_name_is_not_the_remainder :
    utf8Decode legacyFourSeg = some legacyFourSeg ∧
    ((processResponse (some legacyFourSeg) (str2cp "10.0.0.9", 30303) none []).1.map
      (fun kv => kv.2.name) = [str2cp "c"]) ∧
    specLegacyRemainderName legacyFourSeg = str2cp "c\r\nd" ∧
    str2cp "c" ≠ str2cp "c\r\nd" := by
  exact ⟨rfl, rfl, rfl, by decide⟩

/-- Characterization of `processResponse` on the legacy branch when the
payload decodes: the result is the guarded legacy insertion. -/
theorem processResponse_legacy_eq (d : List Nat) (s : PyStr) (fromAddress : PyStr × Nat)
    (address : Option PyStr) (responseList : ResponseList)
    (hecho : d ≠ DISCOVER_MESSAGE) (htag : pySlice d 0 7 ≠ MODEL_550_BYTES)
    (hdec : utf8Decode d = some s) :
    processResponse (some d) fromAddress address responseList
      = if (splitCRLF s).length < 3 ∨ dictContains (.kstr fromAddress.1) responseList = true
        then (responseList, .ok false)
        else (dictSet (.ktup fromAddress.1 fromAddress.2)
            { hostname := rstrip ((splitCRLF s).getD 0 [])
              mac := normalize_mac (rstrip ((splitCRLF s).getD 1 []))
              ipaddress := fromAddress.1
              name := rstrip (takeUntil 0 ((splitCRLF s).getD 2 []))
              model := takeUntil 45 (rstrip ((splitCRLF s).getD 0 []))
              additional_data := [] } responseList,
          .ok (addrEq fromAddress.1 address)) := by
  simp only [processResponse]
  rw [if_neg hecho, if_neg htag, hdec]

/-- Characterization of `processResponse` on the legacy branch when the
payload is not decodable text: the raised decode error. -/
theorem processResponse_undecodable_eq (d : List Nat) (fromAddress : PyStr × Nat)
    (address : Option PyStr) (responseList : ResponseList)
    (hecho : d ≠ DISCOVER_MESSAGE) (htag : pySlice d 0 7 ≠ MODEL_550_BYTES)
    (hdec : utf8Decode d = none) :
    processResponse (some d) fromAddress address responseList
      = (responseList, .error .unicodeDecodeError) := by
  simp only [processResponse]
  rw [if_neg hecho, if_neg htag, hdec]

/-- C9: if the payload carries the `"STM 550"` tag and any of the five
fixed-width status sub-fields fails to decode or parse, `_process_response`
raises that error and the collector mapping is returned exactly unchanged:
all parsing precedes the single dict insertion. -/
theorem c9_550_parse_failure_atomic (d : List Nat) (fromAddress : PyStr × Nat)
    (address : Option PyStr) (responseList : ResponseList) (e : PyErr)
    (htag : pySlice d 0 7 = MODEL_550_BYTES)
    (hfail : parse550fields d = .error e) :
    processResponse (some d) fromAddress address responseList
      = (responseList, .error e) := by
  have hecho : ¬ d = DISCOVER_MESSAGE := by
    intro hd
    rw [hd] at htag
    exact absurd htag (by decide)
  simp only [processResponse]
  rw [if_neg hecho, if_pos htag, hfail]

/-- C9 witness: the tag alone (a payload too short to contain the
temperature field) raises a `ValueError` and leaves an empty collector
unchanged. -/
theorem c9_550_parse_failure_atomic_witness :
    parse550fields (str2cp "STM 550") = .error .valueError ∧
    processResponse (some (str2cp "STM 550")) (str2cp "10.0.0.1", 30303) none []
      = ([], .error .valueError) :=
  ⟨rfl, c9_550_parse_failure_atomic (str2cp "STM 550") (str2cp "10.0.0.1", 30303) none []
    .valueError rfl rfl⟩

/-- C7: a non-echo payload without the 550 tag that the legacy rules cannot
parse — undecodable text, or fewer than 3 CRLF segments — is ignored: the
collector is unchanged and the outcome is never a stop signal (it is a
falsy return or a raised-and-logged error, so the session continues). -/
theorem c7_malformed_ignored (d : List Nat) (fromAddress : PyStr × Nat)
    (address : Option PyStr) (responseList : ResponseList)
    (hecho : d ≠ DISCOVER_MESSAGE) (htag : pySlice d 0 7 ≠ MODEL_550_BYTES)
    (hbad : utf8Decode d = none ∨ ∃ s, utf8Decode d = some s ∧ (splitCRLF s).length < 3) :
    (processResponse (some d) fromAddress address responseList).1 = responseList ∧
    (processResponse (some d) fromAddress address responseList).2 ≠ .ok true := by
  rcases hbad with hb | ⟨s, hs, hlen⟩
  · rw [processResponse_undecodable_eq d fromAddress address responseList hecho htag hb]
    exact ⟨rfl, by simp⟩
  · rw [processResponse_legacy_eq d s fromAddress address responseList hecho htag hs,
      if_pos (Or.inl hlen)]
    exact ⟨rfl, by simp⟩

/-- C7 witness: the single byte `0xFF` is not UTF-8 decodable; processing it
leaves an empty collector empty and does not signal a stop. -/
theorem c7_malformed_ignored_witness :
    (processResponse (some [255]) (str2cp "10.0.0.1", 30303) none []).1 = [] ∧
    (processResponse (some [255]) (str2cp "10.0.0.1", 30303) none []).2 ≠ .ok true :=
  c7_malformed_ignored [255] (str2cp "10.0.0.1", 30303) none [] (by decide) (by decide)
    (Or.inl rfl)

/-- C3 (amended): a non-echo, non-550 payload decoding to text with at
least 3 CRLF segments, whose sender ip is not already a key, is stored with
hostname = first segment trimmed, mac = second segment trimmed and
normalized, name = the THIRD segment up to the first NUL trimmed (not the
whole remainder), and model = the part of the hostname before the first
hyphen; the offer returns whether the sender ip equals the target. -/
theorem c3_legacy_decode (d : List Nat) (s ip : PyStr) (port : Nat)
    (address : Option PyStr) (responseList : ResponseList)
    (hecho : d ≠ DISCOVER_MESSAGE) (htag : pySlice d 0 7 ≠ MODEL_550_BYTES)
    (hdec : utf8Decode d = some s) (hlen : 3 ≤ (splitCRLF s).length)
    (hdup : dictContains (.kstr ip) responseList = false) :
    processResponse (some d) (ip, port) address responseList
      = (dictSet (.ktup ip port)
          { hostname := rstrip ((splitCRLF s).getD 0 [])
            mac := normalize_mac (rstrip ((splitCRLF s).getD 1 []))
            ipaddress := ip
            name := rstrip (takeUntil 0 ((splitCRLF s).getD 2 []))
            model := takeUntil 45 (rstrip ((splitCRLF s).getD 0 []))
            additional_data := [] } responseList,
         .ok (addrEq ip address)) := by
  rw [processResponse_legacy_eq d s (ip, port) address responseList hecho htag hdec, if_neg]
  intro hcon
  rcases hcon with h | h
  · omega
  · rw [hdup] at h
    exact Bool.false_ne_true h

/-- C3 witness: the spec's sample legacy payload from
`("192.168.213.252", 48899)` decodes to the claimed record. -/
theorem c3_legacy_decode_witness :
    processResponse (some legacySample) (str2cp "192.168.213.252", 48899) none []
      = ([(.ktup (str2cp "192.168.213.252") 48899,
          { hostname := str2cp "MY450-6340"
            mac := str2cp "00:1E:C0:38:63:40"
            ipaddress := str2cp "192.168.213.252"
            name := str2cp "Master Bath"
            model := str2cp "MY450"
            additional_data := [] })], .ok false) :=
  (c3_legacy_decode legacySample legacySample (str2cp "192.168.213.252") 48899 none []
    (by decide) (by decide) rfl (by decide) rfl).trans rfl

/-- C8: `normalize_mac` is idempotent on every input string, and maps the
two sample inputs to their claimed canonical forms. -/
theorem c8_normalize_mac_idempotent :
    (∀ m : PyStr, normalize_mac (normalize_mac m) = normalize_mac m) ∧
    normalize_mac (str2cp "00-1E-C0-38-63-40") = str2cp "00:1E:C0:38:63:40" ∧
    normalize_mac (str2cp "1:2:3:4:5:6") = str2cp "01:02:03:04:05:06" :=
  ⟨normalize_mac_idem, by decide, by decide⟩

/-- One loop iteration that times out with time left re-sends and recurses. -/
theorem runScanLoop_step_eq (timeoutQ : ℚ) (reply : ℕ → Bool) (fuel : ℕ)
    (now remainT : ℚ) (i sends : ℕ) (now2 remain2 : ℚ)
    (h1 : 0 < min remainT (timeoutQ / BROADCAST_FREQUENCY)) (h2 : reply i = false)
    (h3 : now + min remainT (timeoutQ / BROADCAST_FREQUENCY) < timeoutQ)
    (h4 : now2 = now + min remainT (timeoutQ / BROADCAST_FREQUENCY))
    (h5 : remain2 = timeoutQ - now2) :
    runScanLoop timeoutQ reply (fuel + 1) now remainT i sends
      = runScanLoop timeoutQ reply fuel now2 remain2 (i + 1) (sends + 1) := by
  subst h4
  subst h5
  have g1 : ¬ (min remainT (timeoutQ / BROADCAST_FREQUENCY) ≤ 0) := not_le.mpr h1
  have g3 : ¬ (timeoutQ ≤ now + min remainT (timeoutQ / BROADCAST_FREQUENCY)) := not_le.mpr h3
  simp [runScanLoop, g1, h2, g3]

/-- One loop iteration that times out at or past the deadline stops without
re-sending. -/
theorem runScanLoop_stop_eq (timeoutQ : ℚ) (reply : ℕ → Bool) (fuel : ℕ)
    (now remainT : ℚ) (i sends : ℕ)
    (h1 : 0 < min remainT (timeoutQ / BROADCAST_FREQUENCY)) (h2 : reply i = false)
    (h3 : timeoutQ ≤ now + min remainT (timeoutQ / BROADCAST_FREQUENCY)) :
    runScanLoop timeoutQ reply (fuel + 1) now remainT i sends = sends := by
  have g1 : ¬ (min remainT (timeoutQ / BROADCAST_FREQUENCY) ≤ 0) := not_le.mpr h1
  simp [runScanLoop, g1, h2, h3]

/-- One loop iteration that observes the resolved future stops without
re-sending. -/
theorem runScanLoop_found_eq (timeoutQ : ℚ) (reply : ℕ → Bool) (fuel : ℕ)
    (now remainT : ℚ) (i sends : ℕ)
    (h1 : 0 < min remainT (timeoutQ / BROADCAST_FREQUENCY)) (h2 : reply i = true) :
    runScanLoop timeoutQ reply (fuel + 1) now remainT i sends = sends := by
  have g1 : ¬ (min remainT (timeoutQ / BROADCAST_FREQUENCY) ≤ 0) := not_le.mpr h1
  simp [runScanLoop, g1, h2]

/-- With a positive timeout and no reply ever, the idealized session sends
exactly 3 discovery datagrams. -/
theorem asyncRunScan_noReply (timeoutQ : ℚ) (reply : ℕ → Bool) (k : ℕ)
    (hT : 0 < timeoutQ) (hr : ∀ i, reply i = false) :
    asyncRunScan timeoutQ reply (k + 3) = 3 := by
  have hBF : timeoutQ / BROADCAST_FREQUENCY = timeoutQ / 3 := rfl
  have hle : timeoutQ / 3 ≤ timeoutQ := by linarith
  have hm1 : min timeoutQ (timeoutQ / BROADCAST_FREQUENCY) = timeoutQ / 3 := by
    rw [hBF]
    exact min_eq_right hle
  have hm2 : min (timeoutQ - timeoutQ / 3) (timeoutQ / BROADCAST_FREQUENCY) = timeoutQ / 3 := by
    rw [hBF]
    exact min_eq_right (by linarith)
  have hm3 : min (timeoutQ - (timeoutQ / 3 + timeoutQ / 3)) (timeoutQ / BROADCAST_FREQUENCY)
      = timeoutQ / 3 := by
    rw [hBF]
    exact min_eq_right (by linarith)
  show runScanLoop timeoutQ reply (k + 2 + 1) 0 timeoutQ 0 1 = 3
  rw [runScanLoop_step_eq timeoutQ reply (k + 2) 0 timeoutQ 0 1 (timeoutQ / 3)
      (timeoutQ - timeoutQ / 3) (by rw [hm1]; linarith) (hr 0) (by rw [hm1]; linarith)
      (by rw [hm1]; ring) (by ring)]
  rw [show k + 2 = k + 1 + 1 from rfl]
  rw [runScanLoop_step_eq timeoutQ reply (k + 1) (timeoutQ / 3) (timeoutQ - timeoutQ / 3) 1 2
      (timeoutQ / 3 + timeoutQ / 3) (timeoutQ - (timeoutQ / 3 + timeoutQ / 3))
      (by rw [hm2]; linarith) (hr 1) (by rw [hm2]; linarith) (by rw [hm2]) rfl]
  rw [show k + 1 = k + 0 + 1 from rfl]
  rw [runScanLoop_stop_eq timeoutQ reply (k + 0) (timeoutQ / 3 + timeoutQ / 3)
      (timeoutQ - (timeoutQ / 3 + timeoutQ / 3)) 2 3 (by rw [hm3]; linarith) (hr 2)
      (by rw [hm3]; linarith)]

/-- With a positive timeout and the qualifying reply already there during
the first wait, the idealized session sends exactly 1 discovery datagram. -/
theorem asyncRunScan_foundFirst (timeoutQ : ℚ) (reply : ℕ → Bool) (k : ℕ)
    (hT : 0 < timeoutQ) (hr : reply 0 = true) :
    asyncRunScan timeoutQ reply (k + 3) = 1 := by
  have hBF : timeoutQ / BROADCAST_FREQUENCY = timeoutQ / 3 := rfl
  have hm1 : min timeoutQ (timeoutQ / BROADCAST_FREQUENCY) = timeoutQ / 3 := by
    rw [hBF]
    exact min_eq_right (by linarith)
  show runScanLoop timeoutQ reply (k + 2 + 1) 0 timeoutQ 0 1 = 1
  exact runScanLoop_found_eq timeoutQ reply (k + 2) 0 timeoutQ 0 1
    (by rw [hm1]; linarith) hr

/-- C4: under idealized timing, a session with a positive timeout in which
no qualifying reply ever arrives sends at least
`⌈timeout / (timeout / BROADCAST_FREQUENCY)⌉ = 3` discovery datagrams, and a
session whose qualifying reply arrives before the first sub-interval
expires sends exactly 1. -/
theorem c4_broadcast_count (timeoutQ : ℚ) (reply : ℕ → Bool) (fuel : ℕ)
    (hT : 0 < timeoutQ) (hfuel : 3 ≤ fuel) :
    ((∀ i, reply i = false) →
      ⌈timeoutQ / (timeoutQ / BROADCAST_FREQUENCY)⌉ ≤ (asyncRunScan timeoutQ reply fuel : ℤ)) ∧
    (reply 0 = true → asyncRunScan timeoutQ reply fuel = 1) := by
  obtain ⟨k, rfl⟩ : ∃ k, fuel = k + 3 := ⟨fuel - 3, by omega⟩
  have hceil : ⌈timeoutQ / (timeoutQ / BROADCAST_FREQUENCY)⌉ = 3 := by
    have hBF : timeoutQ / BROADCAST_FREQUENCY = timeoutQ / 3 := rfl
    rw [hBF, div_div_eq_mul_div, mul_comm, mul_div_assoc, div_self (ne_of_gt hT), mul_one]
    norm_num
  constructor
  · intro hr
    rw [asyncRunScan_noReply timeoutQ reply k hT hr, hceil]
    norm_num
  · intro hr
    exact asyncRunScan_foundFirst timeoutQ reply k hT hr

/-- C4 witness: with timeout 3 and fuel 3, a session with no replies sends
at least 3 datagrams, and a session whose reply is there at once sends 1. -/
theorem c4_broadcast_count_witness :
    ⌈(3 : ℚ) / ((3 : ℚ) / BROADCAST_FREQUENCY)⌉ ≤ (asyncRunScan 3 (fun _ => false) 3 : ℤ) ∧
    asyncRunScan 3 (fun _ => true) 3 = 1 :=
  ⟨(c4_broadcast_count 3 (fun _ => false) 3 (by norm_num) le_rfl).1 (fun _ => rfl),
   (c4_broadcast_count 3 (fun _ => true) 3 (by norm_num) le_rfl).2 rfl⟩

end Discovery30303
